import Mathlib

/-!
Verification development for the Kadena blockchain client pipeline of
crankkio/kadena-client-api.  The repository ships the class header
`src/BlockchainHandler.h` (type declarations and documented method
signatures); the method bodies live in a translation unit that is not part
of the tree, so each operation below is modelled from the specification
text and is marked as such in its doc comment.  Types and field names
follow the header where it declares them.
-/

/-- Status codes, translated from the `BlockchainStatus` enumeration in
`src/BlockchainHandler.h` (lines 15-25). -/
inductive BlockchainStatus where
  | SUCCESS
  | FAILURE
  | NO_WIFI
  | HTTP_ERROR
  | EMPTY_RESPONSE
  | PARSING_ERROR
  | NODE_NOT_FOUND
  | READY
  | NOT_DUE
deriving DecidableEq, Repr

/-- Transfer parameters, translated from `struct TransferParams` in
`src/BlockchainHandler.h` (lines 27-31). -/
structure TransferParams where
  receiver : String
  amount : String
  tokenContract : String
deriving DecidableEq, Repr

/-- Persistent fields of the `BlockchainHandler` class, from the private
member list of `src/BlockchainHandler.h` (lines 176-181).  The
`encryptionHandler_` member is an external cryptographic capability and is
out of scope here. -/
structure BlockchainHandler where
  public_key_ : String
  private_key_ : String
  is_wallet_enabled_ : Bool
  kda_server_ : String
  director_pubkeyd_ : String
deriving DecidableEq, Repr

/-- Modelled from the spec: the fixed expected key length of the wallet
key-format constraint (spec section 3, WalletConfig invariant).  Kadena
keys are 64 hexadecimal characters; the exact number is a policy constant
and the proofs below do not depend on its value. -/
def expectedKeyLength : Nat := 64

/-- Modelled from the spec: `isWalletConfigValid`, whose body is in the
missing translation unit.  The header documents it as verifying that the
wallet is enabled and both the public and private keys are of the correct
length (`src/BlockchainHandler.h` lines 57-64). -/
def isWalletConfigValid (h : BlockchainHandler) : Bool :=
  h.is_wallet_enabled_
    && (h.public_key_.length == expectedKeyLength)
    && (h.private_key_.length == expectedKeyLength)

/-- Modelled from the spec: the structured document a response text decodes
to, holding the top-level status indicator and the command-specific fields
that step 4 of the ResponseParser state machine extracts (spec section
4.4). -/
structure Jdoc where
  status : String
  directorPubKey : Option String
  sendAck : Option Bool
deriving DecidableEq, Repr

/-- Modelled from the spec: the status value signaling success (spec
section 4.4, step 3). -/
def statusSuccessMarker : String := "success"

/-- Modelled from the spec: the status value signaling generic failure
(spec section 4.4, step 3). -/
def statusFailureMarker : String := "failure"

/-- Modelled from the spec: the status value signaling node-not-found
(spec section 4.4, step 3). -/
def statusNodeNotFoundMarker : String := "not found"

/-- Modelled from the spec: the command string identifying the
query-director-key command (spec section 4.4, step 4). -/
def directorQueryCommand : String := "get-my-director"

/-- Modelled from the spec: the command string identifying the
send-transfer command (spec section 4.4, step 4). -/
def sendTransferCommand : String := "send"

/-- Tagged result of response parsing, from the `ParsedResult` data model
of spec section 3. -/
inductive ParsedResult where
  | Success (directorPubKey : Option String) (sendAck : Option Bool)
  | Failure
  | EmptyResponse
  | ParsingError
  | NodeNotFound
deriving DecidableEq, Repr

/-- Maps a `ParsedResult` variant to the status code of the
`BlockchainStatus` vocabulary the header exposes. -/
def ParsedResult.toStatus : ParsedResult → BlockchainStatus
  | .Success _ _ => .SUCCESS
  | .Failure => .FAILURE
  | .EmptyResponse => .EMPTY_RESPONSE
  | .ParsingError => .PARSING_ERROR
  | .NodeNotFound => .NODE_NOT_FOUND

/-- A string is empty or consists only of whitespace characters (spec
section 4.4, step 1; the empty string satisfies this). -/
def isEmptyOrWhitespace (s : String) : Bool :=
  s.data.all (fun c => c.isWhitespace)

/-- Modelled from the spec: `parseBlockchainResponse`, whose body is in the
missing translation unit (declared at `src/BlockchainHandler.h` lines
159-174).  The structural decoder is the external ArduinoJson collaborator
and is taken as a parameter.  The single-pass state machine follows spec
section 4.4: empty check, structural parse, status inspection in the order
node-not-found, generic failure, success, with an unrecognized status
treated fail-closed as failure, then command-specific field extraction. -/
def parseBlockchainResponse (decode : String → Option Jdoc)
    (response : String) (command : String) : ParsedResult :=
  if isEmptyOrWhitespace response then
    .EmptyResponse
  else
    match decode response with
    | none => .ParsingError
    | some doc =>
      if doc.status = statusNodeNotFoundMarker then .NodeNotFound
      else if doc.status = statusFailureMarker then .Failure
      else if doc.status = statusSuccessMarker then
        if command = directorQueryCommand then
          match doc.directorPubKey with
          | none => .ParsingError
          | some key => .Success (some key) none
        else if command = sendTransferCommand then
          .Success none (some (doc.sendAck.getD false))
        else
          .Success none none
      else .Failure

/-- Modelled from the spec: the steady-state success cadence interval in
milliseconds (spec section 4.5, step 5; values are a policy constant
table). -/
def steadySuccessIntervalMs : Int := 300000

/-- Modelled from the spec: the configured not-ready interval returned when
the wallet configuration is invalid (spec section 4.5, step 1). -/
def walletNotReadyIntervalMs : Int := 60000

/-- Modelled from the spec: the short retry interval returned on
connectivity, transport, protocol or parse failures (spec section 4.5,
steps 2 and 5). -/
def errorRetryIntervalMs : Int := 30000

/-- Environment of one sync attempt: the external collaborators of
`performNodeSync` (spec sections 1 and 6) — link-layer connectivity, the
transport outcome, the raw response body and the structural decoder. -/
structure SyncEnv where
  wifiAvailable : Bool
  httpOk : Bool
  responseText : String
  decode : String → Option Jdoc

/-- Observable outcome of one `performNodeSync` call: the returned
interval, the surfaced status, the number of transport calls issued, the
packet ids delivered through the secret callback, and the post-call
handler state. -/
structure SyncResult where
  interval : Int
  status : BlockchainStatus
  transportCalls : Nat
  secretCallbacks : List Nat
  state : BlockchainHandler

/-- The handler state after caching a newly learned director public key;
every other field is unchanged. -/
def cacheDirectorKey (h : BlockchainHandler) (key : String) : BlockchainHandler :=
  ⟨h.public_key_, h.private_key_, h.is_wallet_enabled_, h.kda_server_, key⟩

/-- The packet ids delivered through the secret callback when a new
director key is learned: one freshly generated id when both capabilities
are present, none when either is null. -/
def deliveredCalls (packetIdGen : Option Nat) (onSecretGen : Bool) : List Nat :=
  match packetIdGen, onSecretGen with
  | some pid, true => [pid]
  | _, _ => []

/-- Modelled from the spec: `performNodeSync`, whose body is in the missing
translation unit (declared at `src/BlockchainHandler.h` lines 66-78).
Follows the orchestrator state machine of spec section 4.5: wallet
validity check with no network attempt on failure, transport availability
check, send of the director-key query, parse of the response, caching of a
newly learned director key with at most one secret delivery, and the
policy interval for the outcome.  The header defaults both capabilities to
`nullptr`; a null capability is modelled as `none` for the packet-id
generator and `false` for the secret callback, and the delivery is guarded
on both being present. -/
def performNodeSync (h : BlockchainHandler) (node_id : String) (env : SyncEnv)
    (packetIdGen : Option Nat) (onSecretGen : Bool) : SyncResult :=
  if isWalletConfigValid h = false then
    ⟨walletNotReadyIntervalMs, .NOT_DUE, 0, [], h⟩
  else if env.wifiAvailable = false then
    ⟨errorRetryIntervalMs, .NO_WIFI, 0, [], h⟩
  else if env.httpOk = false then
    ⟨errorRetryIntervalMs, .HTTP_ERROR, 1, [], h⟩
  else
    match parseBlockchainResponse env.decode env.responseText directorQueryCommand with
    | .Success (some key) _ =>
      if h.director_pubkeyd_ = key then
        ⟨steadySuccessIntervalMs, .SUCCESS, 1, [], h⟩
      else
        ⟨steadySuccessIntervalMs, .SUCCESS, 1,
          deliveredCalls packetIdGen onSecretGen, cacheDirectorKey h key⟩
    | .Success none _ =>
      ⟨steadySuccessIntervalMs, .SUCCESS, 1, [], h⟩
    | other =>
      ⟨errorRetryIntervalMs, other.toStatus, 1, [], h⟩

/-- The director key a sync attempt would learn from its environment: the
key carried by a successful parse of the response, if any. -/
def envDirectorKey (env : SyncEnv) : Option String :=
  match parseBlockchainResponse env.decode env.responseText directorQueryCommand with
  | .Success (some key) _ => some key
  | _ => none

/-- Runs `performNodeSync` over a sequence of environments, threading the
handler state and collecting every packet id delivered through the secret
callback, in order. -/
def syncSeq (node_id : String) (packetIdGen : Option Nat) (onSecretGen : Bool) :
    BlockchainHandler → List SyncEnv → BlockchainHandler × List Nat
  | h, [] => (h, [])
  | h, env :: rest =>
    let r := performNodeSync h node_id env packetIdGen onSecretGen
    let tailRes := syncSeq node_id packetIdGen onSecretGen r.state rest
    (tailRes.1, r.secretCallbacks ++ tailRes.2)

/-- All three transfer fields are non-empty (spec section 4.1). -/
def TransferParams.isComplete (tp : TransferParams) : Bool :=
  (tp.receiver != "") && (tp.amount != "") && (tp.tokenContract != "")

/-- Command type, from the `Command` data model of spec section 3. -/
inductive CommandType where
  | Local
  | Send
deriving DecidableEq, Repr

/-- A built command record, from the `Command` data model of spec section 3
(the freshly generated nonce metadata is omitted; no claim concerns it). -/
structure Command where
  type : CommandType
  code : String
  transferParams : Option TransferParams
deriving DecidableEq, Repr

/-- Errors of the command build step (spec section 4.1). -/
inductive BuildError where
  | InvalidTransferParams
  | EmptyCommand
deriving DecidableEq, Repr

/-- Modelled from the spec: the CommandBuilder build operation (spec
section 4.1), realised in the missing translation unit by
`createCommandObject` and `executeTransfer`.  When transfer parameters are
supplied, all three fields must be non-empty or the build fails with
`InvalidTransferParams`; the command string itself is validated only for
non-emptiness. -/
def CommandBuilder.build (command : String) (transferParams : Option TransferParams) :
    Except BuildError Command :=
  match transferParams with
  | some tp =>
    if tp.isComplete then
      if command = "" then .error .EmptyCommand
      else .ok ⟨.Send, command, some tp⟩
    else .error .InvalidTransferParams
  | none =>
    if command = "" then .error .EmptyCommand
    else .ok ⟨.Local, command, none⟩

/-- A decoder that fails on every input, standing in for a structural
decoder applied to malformed text. -/
def decodeNone : String → Option Jdoc := fun _ => none

/-- A sample decoder used in concrete witnesses: three recognizable
response bodies and failure on everything else. -/
def sampleDecode : String → Option Jdoc := fun s =>
  if s = "R-success" then some ⟨statusSuccessMarker, some "abc123", none⟩
  else if s = "R-notfound" then some ⟨statusNodeNotFoundMarker, none, none⟩
  else if s = "R-weird" then some ⟨"pending", none, none⟩
  else none

/-- A 64-character key, of the expected wallet key length. -/
def validKey : String :=
  "aaaaaaaaaaaaaaaaaaaaaaaaaaaaaaaaaaaaaaaaaaaaaaaaaaaaaaaaaaaaaaaa"

/-- A handler with a valid wallet configuration and no cached director
key. -/
def sampleHandler : BlockchainHandler := ⟨validKey, validKey, true, "srv", ""⟩

/-- A handler with the wallet enabled but keys of the wrong length. -/
def badHandler : BlockchainHandler := ⟨"ab", "cd", true, "srv", ""⟩

/-- An environment with connectivity and a successful director-key
response. -/
def envOk : SyncEnv := ⟨true, true, "R-success", sampleDecode⟩

/-- An environment with link-layer connectivity but a failed transport
call. -/
def envHttpFail : SyncEnv := ⟨true, false, "", sampleDecode⟩

/-! Theorems settling the claims. -/

/-- C1: for every call to performNodeSync where the wallet configuration is
invalid (wallet enabled but a key not of the expected length, per
isWalletConfigValid), the orchestrator issues no transport call, returns
the configured not-ready interval with a not-due status, leaves the state
untouched, and — being a total function — raises no exception. -/
theorem c1_invalid_wallet_no_transport (h : BlockchainHandler) (node_id : String)
    (env : SyncEnv) (packetIdGen : Option Nat) (onSecretGen : Bool)
    (hen : h.is_wallet_enabled_ = true)
    (hinv : isWalletConfigValid h = false) :
    (performNodeSync h node_id env packetIdGen onSecretGen).transportCalls = 0 ∧
    (performNodeSync h node_id env packetIdGen onSecretGen).interval = walletNotReadyIntervalMs ∧
    (performNodeSync h node_id env packetIdGen onSecretGen).status = .NOT_DUE ∧
    (performNodeSync h node_id env packetIdGen onSecretGen).state = h := by
  simp [performNodeSync, hinv]

/-- Witness for C1 at a concrete misconfigured handler. -/
theorem c1_invalid_wallet_no_transport_witness :
    (performNodeSync badHandler "node1" envOk (some 7) true).transportCalls = 0 ∧
    (performNodeSync badHandler "node1" envOk (some 7) true).interval = walletNotReadyIntervalMs ∧
    (performNodeSync badHandler "node1" envOk (some 7) true).status = .NOT_DUE ∧
    (performNodeSync badHandler "node1" envOk (some 7) true).state = badHandler :=
  c1_invalid_wallet_no_transport badHandler "node1" envOk (some 7) true (by decide) (by decide)

/-- C3 counterexample: the empty response text fails to decode under a
decoder that rejects everything, yet parseBlockchainResponse returns the
empty-response status, not the parsing-error status, because the empty
check precedes the structural parse. -/
theorem c3_counterexample :
    decodeNone "" = none ∧
    parseBlockchainResponse decodeNone "" directorQueryCommand = .EmptyResponse ∧
    (parseBlockchainResponse decodeNone "" directorQueryCommand).toStatus ≠ .PARSING_ERROR := by
  decide

/-- C3 (amended): for every non-empty, non-whitespace-only response text
that fails to decode as the expected structured format,
parseBlockchainResponse returns the parsing-error status and — being a
total function — never throws. -/
theorem c3_parse_failure_is_parsing_error (decode : String → Option Jdoc)
    (response command : String)
    (hws : isEmptyOrWhitespace response = false)
    (hdec : decode response = none) :
    parseBlockchainResponse decode response command = .ParsingError ∧
    (parseBlockchainResponse decode response command).toStatus = .PARSING_ERROR := by
  simp [parseBlockchainResponse, hws, hdec, ParsedResult.toStatus]

/-- Witness for the amended C3 at a concrete undecodable text. -/
theorem c3_parse_failure_is_parsing_error_witness :
    parseBlockchainResponse decodeNone "xyz" directorQueryCommand = .ParsingError ∧
    (parseBlockchainResponse decodeNone "xyz" directorQueryCommand).toStatus = .PARSING_ERROR :=
  c3_parse_failure_is_parsing_error decodeNone "xyz" directorQueryCommand (by decide) (by decide)

/-- C4: for every response text that is empty or whitespace-only,
parseBlockchainResponse returns the empty-response status without
consulting the structural decoder (the result holds for every decoder and
every command); in particular the empty string parses to EmptyResponse. -/
theorem c4_empty_response (decode : String → Option Jdoc) (response command : String)
    (hws : isEmptyOrWhitespace response = true) :
    parseBlockchainResponse decode response command = .EmptyResponse ∧
    (parseBlockchainResponse decode response command).toStatus = .EMPTY_RESPONSE := by
  simp [parseBlockchainResponse, hws, ParsedResult.toStatus]

/-- Witness for C4: the empty string, under a decoder that would accept
other texts, parses to EmptyResponse. -/
theorem c4_empty_response_witness :
    parseBlockchainResponse sampleDecode "" directorQueryCommand = .EmptyResponse ∧
    (parseBlockchainResponse sampleDecode "" directorQueryCommand).toStatus = .EMPTY_RESPONSE :=
  c4_empty_response sampleDecode "" directorQueryCommand (by decide)

/-- C5: for every structurally well-formed response whose top-level status
field carries the node-not-found marker, parseBlockchainResponse returns
the node-not-found status, for every command argument. -/
theorem c5_node_not_found (decode : String → Option Jdoc)
    (response command : String) (doc : Jdoc)
    (hws : isEmptyOrWhitespace response = false)
    (hdec : decode response = some doc)
    (hst : doc.status = statusNodeNotFoundMarker) :
    parseBlockchainResponse decode response command = .NodeNotFound ∧
    (parseBlockchainResponse decode response command).toStatus = .NODE_NOT_FOUND := by
  simp [parseBlockchainResponse, hws, hdec, hst, ParsedResult.toStatus]

/-- Witness for C5 at a concrete not-found response, under the
send-transfer command (the command does not affect the outcome). -/
theorem c5_node_not_found_witness :
    parseBlockchainResponse sampleDecode "R-notfound" sendTransferCommand = .NodeNotFound ∧
    (parseBlockchainResponse sampleDecode "R-notfound" sendTransferCommand).toStatus
      = .NODE_NOT_FOUND :=
  c5_node_not_found sampleDecode "R-notfound" sendTransferCommand
    ⟨statusNodeNotFoundMarker, none, none⟩ (by decide) (by decide) (by decide)

/-- C6: for every structurally valid response whose top-level status field
holds a value that is neither the success marker, the generic-failure
marker, nor the node-not-found marker, parseBlockchainResponse returns the
failure status (fail-closed); in particular the result is never the
success status. -/
theorem c6_unrecognized_status_fail_closed (decode : String → Option Jdoc)
    (response command : String) (doc : Jdoc)
    (hws : isEmptyOrWhitespace response = false)
    (hdec : decode response = some doc)
    (h1 : doc.status ≠ statusSuccessMarker)
    (h2 : doc.status ≠ statusFailureMarker)
    (h3 : doc.status ≠ statusNodeNotFoundMarker) :
    parseBlockchainResponse decode response command = .Failure ∧
    (parseBlockchainResponse decode response command).toStatus = .FAILURE ∧
    (parseBlockchainResponse decode response command).toStatus ≠ .SUCCESS := by
  simp [parseBlockchainResponse, hws, hdec, h1, h2, h3, ParsedResult.toStatus]

/-- Witness for C6 at a concrete response carrying the unrecognized status
value pending. -/
theorem c6_unrecognized_status_fail_closed_witness :
    parseBlockchainResponse sampleDecode "R-weird" directorQueryCommand = .Failure ∧
    (parseBlockchainResponse sampleDecode "R-weird" directorQueryCommand).toStatus = .FAILURE ∧
    (parseBlockchainResponse sampleDecode "R-weird" directorQueryCommand).toStatus ≠ .SUCCESS :=
  c6_unrecognized_status_fail_closed sampleDecode "R-weird" directorQueryCommand
    ⟨"pending", none, none⟩ (by decide) (by decide) (by decide) (by decide) (by decide)

/-- C7: for every command build in which transfer parameters are supplied
with any of the three fields receiver, amount or tokenContract empty, the
build fails with the InvalidTransferParams error. -/
theorem c7_invalid_transfer_params (command : String) (tp : TransferParams)
    (hfield : tp.receiver = "" ∨ tp.amount = "" ∨ tp.tokenContract = "") :
    CommandBuilder.build command (some tp) = .error .InvalidTransferParams := by
  rcases hfield with h | h | h <;>
    simp [CommandBuilder.build, TransferParams.isComplete, h]

/-- Witness for C7: a transfer with an empty receiver fails with
InvalidTransferParams. -/
theorem c7_invalid_transfer_params_witness :
    CommandBuilder.build "transfer" (some ⟨"", "10", "coin"⟩)
      = .error .InvalidTransferParams :=
  c7_invalid_transfer_params "transfer" ⟨"", "10", "coin"⟩ (Or.inl rfl)


/-- Case analysis of one performNodeSync call: the misconfiguration branch,
the two connectivity branches, a success with nothing new to cache, a
success learning a new director key, and a parse failure. -/
theorem performNodeSync_cases (h : BlockchainHandler) (node_id : String) (env : SyncEnv)
    (packetIdGen : Option Nat) (onSecretGen : Bool) :
    performNodeSync h node_id env packetIdGen onSecretGen
        = ⟨walletNotReadyIntervalMs, .NOT_DUE, 0, [], h⟩ ∨
    performNodeSync h node_id env packetIdGen onSecretGen
        = ⟨errorRetryIntervalMs, .NO_WIFI, 0, [], h⟩ ∨
    performNodeSync h node_id env packetIdGen onSecretGen
        = ⟨errorRetryIntervalMs, .HTTP_ERROR, 1, [], h⟩ ∨
    performNodeSync h node_id env packetIdGen onSecretGen
        = ⟨steadySuccessIntervalMs, .SUCCESS, 1, [], h⟩ ∨
    (∃ key, envDirectorKey env = some key ∧ h.director_pubkeyd_ ≠ key ∧
      performNodeSync h node_id env packetIdGen onSecretGen
        = ⟨steadySuccessIntervalMs, .SUCCESS, 1, deliveredCalls packetIdGen onSecretGen,
            cacheDirectorKey h key⟩) ∨
    (∃ st, st ≠ BlockchainStatus.SUCCESS ∧
      performNodeSync h node_id env packetIdGen onSecretGen
        = ⟨errorRetryIntervalMs, st, 1, [], h⟩) := by
  unfold performNodeSync
  by_cases h1 : isWalletConfigValid h = false
  · simp [h1]
  · by_cases h2 : env.wifiAvailable = false
    · simp [h1, h2]
    · by_cases h3 : env.httpOk = false
      · simp [h1, h2, h3]
      · cases hp : parseBlockchainResponse env.decode env.responseText directorQueryCommand with
        | Success dk ack =>
          cases dk with
          | none => simp [h1, h2, h3, hp]
          | some key =>
            by_cases hk : h.director_pubkeyd_ = key
            · simp [h1, h2, h3, hp, hk]
            · refine Or.inr (Or.inr (Or.inr (Or.inr (Or.inl ⟨key, ?_, hk, ?_⟩))))
              · simp [envDirectorKey, hp]
              · simp [h1, h2, h3, hp, hk]
        | Failure =>
          refine Or.inr (Or.inr (Or.inr (Or.inr (Or.inr ⟨.FAILURE, by decide, ?_⟩))))
          simp [h1, h2, h3, hp, ParsedResult.toStatus]
        | EmptyResponse =>
          refine Or.inr (Or.inr (Or.inr (Or.inr (Or.inr ⟨.EMPTY_RESPONSE, by decide, ?_⟩))))
          simp [h1, h2, h3, hp, ParsedResult.toStatus]
        | ParsingError =>
          refine Or.inr (Or.inr (Or.inr (Or.inr (Or.inr ⟨.PARSING_ERROR, by decide, ?_⟩))))
          simp [h1, h2, h3, hp, ParsedResult.toStatus]
        | NodeNotFound =>
          refine Or.inr (Or.inr (Or.inr (Or.inr (Or.inr ⟨.NODE_NOT_FOUND, by decide, ?_⟩))))
          simp [h1, h2, h3, hp, ParsedResult.toStatus]

/-- C8: for every sync operation that ends in any non-success status
(misconfiguration, connectivity, transport or protocol failure), the
cached director public key — indeed the whole handler state — is left
unchanged; the cache is written only on a fully successful parse. -/
theorem c8_cache_unchanged_on_failure (h : BlockchainHandler) (node_id : String)
    (env : SyncEnv) (packetIdGen : Option Nat) (onSecretGen : Bool)
    (hfail : (performNodeSync h node_id env packetIdGen onSecretGen).status ≠ .SUCCESS) :
    (performNodeSync h node_id env packetIdGen onSecretGen).state.director_pubkeyd_
      = h.director_pubkeyd_ ∧
    (performNodeSync h node_id env packetIdGen onSecretGen).state = h := by
  rcases performNodeSync_cases h node_id env packetIdGen onSecretGen with
    hc | hc | hc | hc | ⟨key, hkey, hne, hc⟩ | ⟨st, hst, hc⟩
  · rw [hc]; exact ⟨rfl, rfl⟩
  · rw [hc]; exact ⟨rfl, rfl⟩
  · rw [hc]; exact ⟨rfl, rfl⟩
  · rw [hc] at hfail; exact absurd rfl hfail
  · rw [hc] at hfail; exact absurd rfl hfail
  · rw [hc]; exact ⟨rfl, rfl⟩

/-- Witness for C8 at a concrete failed transport call. -/
theorem c8_cache_unchanged_on_failure_witness :
    (performNodeSync sampleHandler "node1" envHttpFail (some 7) true).state.director_pubkeyd_
      = sampleHandler.director_pubkeyd_ ∧
    (performNodeSync sampleHandler "node1" envHttpFail (some 7) true).state = sampleHandler :=
  c8_cache_unchanged_on_failure sampleHandler "node1" envHttpFail (some 7) true (by decide)

/-- C9: the interval returned by performNodeSync is monotonically
responsive to the outcome status — a success outcome returns the
steady-state cadence interval, and every error or failure outcome returns
a strictly shorter interval. -/
theorem c9_error_interval_shorter (h : BlockchainHandler) (node_id : String)
    (env : SyncEnv) (packetIdGen : Option Nat) (onSecretGen : Bool) :
    ((performNodeSync h node_id env packetIdGen onSecretGen).status = .SUCCESS →
      (performNodeSync h node_id env packetIdGen onSecretGen).interval
        = steadySuccessIntervalMs) ∧
    ((performNodeSync h node_id env packetIdGen onSecretGen).status ≠ .SUCCESS →
      (performNodeSync h node_id env packetIdGen onSecretGen).interval
        < steadySuccessIntervalMs) := by
  rcases performNodeSync_cases h node_id env packetIdGen onSecretGen with
    hc | hc | hc | hc | ⟨key, hkey, hne, hc⟩ | ⟨st, hst, hc⟩
  · rw [hc]; simp [walletNotReadyIntervalMs, steadySuccessIntervalMs]
  · rw [hc]; simp [errorRetryIntervalMs, steadySuccessIntervalMs]
  · rw [hc]; simp [errorRetryIntervalMs, steadySuccessIntervalMs]
  · rw [hc]; exact ⟨fun _ => rfl, fun hns => absurd rfl hns⟩
  · rw [hc]; exact ⟨fun _ => rfl, fun hns => absurd rfl hns⟩
  · rw [hc]; simp [errorRetryIntervalMs, steadySuccessIntervalMs, hst]

/-- Witness for C9: a concrete success call returns the steady interval and
a concrete failed call returns a strictly shorter one. -/
theorem c9_error_interval_shorter_witness :
    (performNodeSync sampleHandler "node1" envOk (some 7) true).interval
      = steadySuccessIntervalMs ∧
    (performNodeSync sampleHandler "node1" envHttpFail (some 7) true).interval
      < steadySuccessIntervalMs :=
  ⟨(c9_error_interval_shorter sampleHandler "node1" envOk (some 7) true).1 (by decide),
   (c9_error_interval_shorter sampleHandler "node1" envHttpFail (some 7) true).2 (by decide)⟩

/-- C10: performNodeSync called with both capabilities null (the header
defaults packetIdGen and onSecretGen to nullptr) completes for every
environment — including one in which a new director public key is learned
— returning a positive interval and invoking no callback. -/
theorem c10_null_capabilities_safe (h : BlockchainHandler) (node_id : String)
    (env : SyncEnv) :
    (performNodeSync h node_id env none false).secretCallbacks = [] ∧
    0 < (performNodeSync h node_id env none false).interval := by
  rcases performNodeSync_cases h node_id env none false with
    hc | hc | hc | hc | ⟨key, hkey, hne, hc⟩ | ⟨st, hst, hc⟩ <;>
    rw [hc] <;>
    simp [deliveredCalls, walletNotReadyIntervalMs, errorRetryIntervalMs,
      steadySuccessIntervalMs]

/-- A sync call against an environment whose learnable director key is
already the cached one delivers no secret and leaves the cached key in
place. -/
theorem sync_cached_key_no_delivery (h : BlockchainHandler) (node_id : String)
    (env : SyncEnv) (packetIdGen : Option Nat) (onSecretGen : Bool) (k : String)
    (hmono : ∀ key, envDirectorKey env = some key → key = k)
    (hcache : h.director_pubkeyd_ = k) :
    (performNodeSync h node_id env packetIdGen onSecretGen).secretCallbacks = [] ∧
    (performNodeSync h node_id env packetIdGen onSecretGen).state.director_pubkeyd_ = k := by
  rcases performNodeSync_cases h node_id env packetIdGen onSecretGen with
    hc | hc | hc | hc | ⟨key, hkey, hne, hc⟩ | ⟨st, hst, hc⟩
  · rw [hc]; exact ⟨rfl, hcache⟩
  · rw [hc]; exact ⟨rfl, hcache⟩
  · rw [hc]; exact ⟨rfl, hcache⟩
  · rw [hc]; exact ⟨rfl, hcache⟩
  · exact absurd (hcache.trans (hmono key hkey).symm) hne
  · rw [hc]; exact ⟨rfl, hcache⟩

/-- A single sync call delivers at most one secret, every delivered packet
id comes from the packet-id generator, and a delivery caches exactly the
key learnable from the environment. -/
theorem sync_step_delivery_bound (h : BlockchainHandler) (node_id : String)
    (env : SyncEnv) (packetIdGen : Option Nat) (onSecretGen : Bool) :
    (performNodeSync h node_id env packetIdGen onSecretGen).secretCallbacks.length ≤ 1 ∧
    (∀ p ∈ (performNodeSync h node_id env packetIdGen onSecretGen).secretCallbacks,
      packetIdGen = some p) ∧
    ((performNodeSync h node_id env packetIdGen onSecretGen).secretCallbacks ≠ [] →
      envDirectorKey env
        = some (performNodeSync h node_id env packetIdGen onSecretGen).state.director_pubkeyd_) := by
  rcases performNodeSync_cases h node_id env packetIdGen onSecretGen with
    hc | hc | hc | hc | ⟨key, hkey, hne, hc⟩ | ⟨st, hst, hc⟩ <;> rw [hc]
  · simp
  · simp
  · simp
  · simp
  · refine ⟨?_, ?_, ?_⟩
    · cases packetIdGen <;> cases onSecretGen <;> simp [deliveredCalls]
    · intro p hp
      cases packetIdGen with
      | none => simp [deliveredCalls] at hp
      | some q =>
        cases onSecretGen with
        | false => simp [deliveredCalls] at hp
        | true =>
          simp [deliveredCalls] at hp
          simp [hp]
    · intro _
      simpa [cacheDirectorKey] using hkey
  · simp

/-- Across a sequence of sync calls whose environments can only teach one
fixed director key, at most one secret is delivered in total, every
delivered packet id comes from the generator, and nothing is delivered
when that key is cached from the start. -/
theorem syncSeq_delivery_bound (node_id : String) (packetIdGen : Option Nat)
    (onSecretGen : Bool) (k : String) :
    ∀ (envs : List SyncEnv) (h : BlockchainHandler),
    (∀ env ∈ envs, ∀ key, envDirectorKey env = some key → key = k) →
    ((syncSeq node_id packetIdGen onSecretGen h envs).2.length ≤ 1 ∧
     (∀ p ∈ (syncSeq node_id packetIdGen onSecretGen h envs).2, packetIdGen = some p) ∧
     (h.director_pubkeyd_ = k → (syncSeq node_id packetIdGen onSecretGen h envs).2 = [])) := by
  intro envs
  induction envs with
  | nil =>
    intro h _
    simp [syncSeq]
  | cons env rest ih =>
    intro h hk
    have hkenv : ∀ key, envDirectorKey env = some key → key = k :=
      fun key hkey => hk env (List.mem_cons_self env rest) key hkey
    have hkrest : ∀ e ∈ rest, ∀ key, envDirectorKey e = some key → key = k :=
      fun e he key hkey => hk e (List.mem_cons_of_mem env he) key hkey
    obtain ⟨hb1, hb2, hb3⟩ := sync_step_delivery_bound h node_id env packetIdGen onSecretGen
    simp only [syncSeq]
    refine ⟨?_, ?_, ?_⟩
    · by_cases hcb :
        (performNodeSync h node_id env packetIdGen onSecretGen).secretCallbacks = []
      · rw [hcb]
        simpa using
          (ih (performNodeSync h node_id env packetIdGen onSecretGen).state hkrest).1
      · have hdir := hkenv _ (hb3 hcb)
        have htail :=
          (ih (performNodeSync h node_id env packetIdGen onSecretGen).state hkrest).2.2 hdir
        rw [htail]
        simpa using hb1
    · intro p hp
      rcases List.mem_append.mp hp with hp1 | hp2
      · exact hb2 p hp1
      · exact (ih (performNodeSync h node_id env packetIdGen onSecretGen).state hkrest).2.1 p hp2
    · intro hch
      obtain ⟨hc1, hc2⟩ :=
        sync_cached_key_no_delivery h node_id env packetIdGen onSecretGen k hkenv hch
      rw [hc1,
        (ih (performNodeSync h node_id env packetIdGen onSecretGen).state hkrest).2.2 hc2]
      rfl

/-- C2: across any sequence of performNodeSync calls for a node whose
remote director public key does not change, the secret callback is invoked
at most once in total; every delivered packet id is obtained from the
packet-id generator; no delivery happens when the key is already cached at
the start; and the call that first learns the key (capabilities present,
wallet valid, connectivity up, key not yet cached) delivers exactly
once. -/
theorem c2_onSecret_at_most_once (node_id : String) (packetIdGen : Option Nat)
    (onSecretGen : Bool) (k : String) (h : BlockchainHandler) (envs : List SyncEnv)
    (hk : ∀ env ∈ envs, ∀ key, envDirectorKey env = some key → key = k) :
    (syncSeq node_id packetIdGen onSecretGen h envs).2.length ≤ 1 ∧
    (∀ p ∈ (syncSeq node_id packetIdGen onSecretGen h envs).2, packetIdGen = some p) ∧
    (h.director_pubkeyd_ = k → (syncSeq node_id packetIdGen onSecretGen h envs).2 = []) ∧
    (∀ env p, isWalletConfigValid h = true → env.wifiAvailable = true →
      env.httpOk = true → envDirectorKey env = some k → h.director_pubkeyd_ ≠ k →
      packetIdGen = some p → onSecretGen = true →
      (performNodeSync h node_id env packetIdGen onSecretGen).secretCallbacks = [p]) := by
  obtain ⟨h1, h2, h3⟩ := syncSeq_delivery_bound node_id packetIdGen onSecretGen k envs h hk
  refine ⟨h1, h2, h3, ?_⟩
  intro env p hw hwifi hhttp hkey hne hpid hons
  subst hpid
  subst hons
  have hp' := hkey
  unfold envDirectorKey at hp'
  cases hp : parseBlockchainResponse env.decode env.responseText directorQueryCommand with
  | Success dk ack =>
    rw [hp] at hp'
    cases dk with
    | none => simp at hp'
    | some key =>
      simp at hp'
      subst hp'
      unfold performNodeSync
      simp [hw, hwifi, hhttp, hp, hne, deliveredCalls]
  | Failure => rw [hp] at hp'; simp at hp'
  | EmptyResponse => rw [hp] at hp'; simp at hp'
  | ParsingError => rw [hp] at hp'; simp at hp'
  | NodeNotFound => rw [hp] at hp'; simp at hp'

/-- Witness for C2: two successive sync calls against the same successful
environment deliver the secret exactly once, on the first call. -/
theorem c2_onSecret_at_most_once_witness :
    (syncSeq "node1" (some 7) true sampleHandler [envOk, envOk]).2 = [7] ∧
    (syncSeq "node1" (some 7) true sampleHandler [envOk, envOk]).2.length ≤ 1 :=
  ⟨by decide,
   (c2_onSecret_at_most_once "node1" (some 7) true "abc123" sampleHandler [envOk, envOk]
     (by
       intro env henv key hkey
       have he : env = envOk := by
         rcases List.mem_cons.mp henv with h1 | h2
         · exact h1
         · rcases List.mem_cons.mp h2 with h3 | h4
           · exact h3
           · exact absurd h4 (by simp)
       subst he
       have hv : envDirectorKey envOk = some "abc123" := by decide
       rw [hv] at hkey
       exact (Option.some_inj.mp hkey).symm)).1⟩
